import Mathlib

/-!
Shallow embedding of `dbus-consumption-calculator.py`: a Venus OS service
that reads net grid power and PV production from two dbus services and
republishes a computed household consumption value.

The embedding models:
- the dbus value store of the published service (paths to values),
- the registration sequence in `ConsumptionCalculator.__init__`,
- the per-tick computation and publish in `ConsumptionCalculator._update`,
  with fault injection for reads and for the publish transaction,
- the bounded-retry service discovery loop in `main`.

Power readings are modelled as rationals; a reading that is unavailable on
the bus is `Option.none`, matching the `None` checks in `_update`.
-/

namespace ConsumptionCalc

/-- A value stored at a dbus path: the service registers both string-valued
and numeric paths. -/
inductive DbusValue where
  | str (s : String)
  | num (q : ℚ)
  deriving DecidableEq

/-- The published dbus service, as a map from path to current value. -/
def Store : Type := String → Option DbusValue

/-- `add_path` / item assignment: set the value at one path. -/
def Store.set (s : Store) (p : String) (v : DbusValue) : Store :=
  fun q => if q = p then some v else s q

/-- The service before any `add_path` call. -/
def emptyStore : Store := fun _ => none

/-- The store right after `ConsumptionCalculator.__init__` has executed all
its `add_path` calls and registered the service.  `file` stands for
`__file__` and `pyver` for `platform.python_version()`, both of which are
environment-dependent strings. -/
def initStore (file pyver : String) : Store :=
  ((((((((((((((((emptyStore.set
    "/Mgmt/ProcessName" (.str file)).set
    "/Mgmt/ProcessVersion" (.str ("v1.0 on Python " ++ pyver))).set
    "/Mgmt/Connection" (.str "Calculated from Grid + PV")).set
    "/DeviceInstance" (.num 100)).set
    "/ProductId" (.num 0)).set
    "/ProductName" (.str "Consumption Calculator")).set
    "/CustomName" (.str "AC Loads")).set
    "/FirmwareVersion" (.num 1)).set
    "/HardwareVersion" (.num 0)).set
    "/Connected" (.num 1)).set
    "/Role" (.str "acload")).set
    "/Serial" (.str "CALC001")).set
    "/Ac/Power" (.num 0)).set
    "/Ac/L1/Power" (.num 0)).set
    "/Ac/L2/Power" (.num 0)).set
    "/Ac/L3/Power" (.num 0))

/-- The four consumption values computed on a tick, one per published
output path. -/
structure TickOutput where
  acPower : ℚ
  acL1Power : ℚ
  acL2Power : ℚ
  acL3Power : ℚ
  deriving DecidableEq

/-- The pure computation inside `_update`, from the four raw readings
(`None` = unavailable) to the four values written to the store:
default unavailable readings to 0, branch on the sign of the total grid
reading, and clamp the two computed figures at 0. -/
def computeTick (grid_power grid_l1_power pv_power pv_l1_power : Option ℚ) :
    TickOutput :=
  let gp := grid_power.getD 0
  let gl1 := grid_l1_power.getD 0
  let pp := pv_power.getD 0
  let pl1 := pv_l1_power.getD 0
  let consumption_total := if gp < 0 then |gp| + pp else pp - gp
  let consumption_l1 := if gp < 0 then |gl1| + pl1 else pl1 - gl1
  { acPower := max 0 consumption_total
    acL1Power := max 0 consumption_l1
    acL2Power := 0
    acL3Power := 0 }

/-- What one tick of `_update` observes from the outside world: the result
of each of the four `get_value()` calls (which may raise), and whether the
publish transaction succeeds. -/
structure TickInput where
  grid_power : Except Unit (Option ℚ)
  grid_l1_power : Except Unit (Option ℚ)
  pv_power : Except Unit (Option ℚ)
  pv_l1_power : Except Unit (Option ℚ)
  publishOk : Bool

/-- Whether a `get_value()` call returned without raising. -/
def readOk : Except Unit (Option ℚ) → Bool
  | .ok _ => true
  | .error _ => false

/-- A tick input on which some step of the read/compute/publish sequence
raises an exception. -/
def faulty (i : TickInput) : Bool :=
  !(readOk i.grid_power && readOk i.grid_l1_power &&
    readOk i.pv_power && readOk i.pv_l1_power && i.publishOk)

/-- The four reads at the top of `_update`, in source order; the first
raising read aborts the sequence. -/
def readAll (i : TickInput) :
    Except Unit (Option ℚ × Option ℚ × Option ℚ × Option ℚ) :=
  match i.grid_power with
  | .error e => .error e
  | .ok gp =>
    match i.grid_l1_power with
    | .error e => .error e
    | .ok gl1 =>
      match i.pv_power with
      | .error e => .error e
      | .ok pp =>
        match i.pv_l1_power with
        | .error e => .error e
        | .ok pl1 => .ok (gp, gl1, pp, pl1)

/-- Result of one call to `_update`: the store after the tick, the error
log lines emitted, and the value returned to the GLib scheduler. -/
structure TickResult where
  store : Store
  log : List String
  ret : Bool

/-- The `with self._dbusservice as s:` block: one atomic write of the four
output paths. -/
def publish (s : Store) (out : TickOutput) : Store :=
  (((s.set "/Ac/Power" (.num out.acPower)).set
    "/Ac/L1/Power" (.num out.acL1Power)).set
    "/Ac/L2/Power" (.num out.acL2Power)).set
    "/Ac/L3/Power" (.num out.acL3Power)

/-- One call of `ConsumptionCalculator._update`: read the four values,
compute, publish atomically; any exception is caught and logged and the
store is left unchanged; `True` is returned in every case. -/
def update (i : TickInput) (s : Store) : TickResult :=
  match readAll i with
  | .error _ => ⟨s, ["Error updating consumption"], true⟩
  | .ok (gp, gl1, pp, pl1) =>
    if i.publishOk then
      ⟨publish s (computeTick gp gl1 pp pl1), [], true⟩
    else
      ⟨s, ["Error updating consumption"], true⟩

/-- A run of successive scheduler ticks starting from a given store. -/
def runTicks (ticks : List TickInput) (s : Store) : Store :=
  ticks.foldl (fun st i => (update i st).store) s

/-! ### Startup service discovery (`main`) -/

/-- `max_retries = 30` in `main`. -/
def max_retries : Nat := 30

/-- `time.sleep(2)` between failed resolution attempts. -/
def retry_interval : Nat := 2

/-- Outcome of one service wait loop: the service was found, the process
called `sys.exit(1)`, or the `while` condition became false and the loop
fell through (only reachable when `max_retries = 0`).  Each outcome records
the number of `get_object` attempts made and the total seconds slept. -/
inductive WaitResult where
  | found (attempts slept : Nat)
  | exitCode (code attempts slept : Nat)
  | fellThrough (attempts slept : Nat)
  deriving DecidableEq

/-- Number of `get_object` attempts recorded in a wait outcome. -/
def WaitResult.attempts : WaitResult → Nat
  | .found a _ => a
  | .exitCode _ a _ => a
  | .fellThrough a _ => a

/-- Total seconds slept, recorded in a wait outcome. -/
def WaitResult.slept : WaitResult → Nat
  | .found _ t => t
  | .exitCode _ _ t => t
  | .fellThrough _ t => t

/-- The `while retry_count < max_retries` loop body in `main`.
`avail k` tells whether the `get_object` call on attempt number `k`
(0-based) succeeds.  `remaining` is the fuel `maxR - retry_count`, so the
loop condition `retry_count < maxR` is exactly `remaining ≠ 0`. -/
def waitLoop (avail : Nat → Bool) (maxR : Nat) :
    Nat → Nat → Nat → Nat → WaitResult
  | 0, _, attempts, slept => .fellThrough attempts slept
  | remaining + 1, retry_count, attempts, slept =>
    if avail retry_count then
      .found (attempts + 1) slept
    else if retry_count + 1 ≥ maxR then
      .exitCode 1 (attempts + 1) slept
    else
      waitLoop avail maxR remaining (retry_count + 1)
        (attempts + 1) (slept + retry_interval)

/-- One pass of the waiting loop for one service, started with
`retry_count = 0`. -/
def waitForService (avail : Nat → Bool) (maxR : Nat) : WaitResult :=
  waitLoop avail maxR maxR 0 0 0

/-- Outcome of the `for service_name in [grid_service, pv_service]` loop:
the wait result of the grid service, the wait result of the PV service
(`none` when the process exited before reaching it), and the exit status
when the process terminated during discovery. -/
structure DiscoveryOutcome where
  gridResult : WaitResult
  pvResult : Option WaitResult
  exitStatus : Option Nat
  deriving DecidableEq

/-- The startup discovery phase of `main`: wait for the grid service, then
for the PV service; `sys.exit(1)` on either wait aborts the process there. -/
def mainDiscovery (gridAvail pvAvail : Nat → Bool) : DiscoveryOutcome :=
  let g := waitForService gridAvail max_retries
  match g with
  | .exitCode c _ _ => ⟨g, none, some c⟩
  | _ =>
    let p := waitForService pvAvail max_retries
    match p with
    | .exitCode c _ _ => ⟨g, some p, some c⟩
    | _ => ⟨g, some p, none⟩

/-! ### Helper lemmas -/

/-- Reading a path just written. -/
lemma Store.set_self (s : Store) (p : String) (v : DbusValue) :
    s.set p v p = some v := by
  simp [Store.set]

/-- Reading a different path than the one written. -/
lemma Store.set_ne (s : Store) (p q : String) (v : DbusValue) (h : q ≠ p) :
    s.set p v q = s q := by
  simp [Store.set, h]

/-- A faulting tick is caught: the store is untouched, an error is logged,
and `True` is still returned to the scheduler. -/
lemma update_of_faulty (i : TickInput) (s : Store) (h : faulty i = true) :
    update i s = ⟨s, ["Error updating consumption"], true⟩ := by
  obtain ⟨g, gl, p, pl, pub⟩ := i
  cases g <;> cases gl <;> cases p <;> cases pl <;> cases pub <;>
    first
      | rfl
      | simp [faulty, readOk] at h

/-- A non-faulting tick publishes the computed output of the four values
it read, logs nothing, and returns `True`, whatever the current store. -/
lemma update_of_not_faulty (i : TickInput) (h : faulty i = false) :
    ∃ gp gl1 pp pl1, ∀ s : Store,
      update i s = ⟨publish s (computeTick gp gl1 pp pl1), [], true⟩ := by
  obtain ⟨g, gl, p, pl, pub⟩ := i
  cases g <;> cases gl <;> cases p <;> cases pl <;> cases pub <;>
    first
      | exact ⟨_, _, _, _, fun s => rfl⟩
      | simp [faulty, readOk] at h

/-- Every tick leaves the store either unchanged or equal to a publish of
some computed output. -/
lemma update_store_cases (i : TickInput) (s : Store) :
    (update i s).store = s ∨
    ∃ gp gl1 pp pl1,
      (update i s).store = publish s (computeTick gp gl1 pp pl1) := by
  cases h : faulty i
  · obtain ⟨gp, gl1, pp, pl1, he⟩ := update_of_not_faulty i h
    exact Or.inr ⟨gp, gl1, pp, pl1, by rw [he s]⟩
  · exact Or.inl (by rw [update_of_faulty i s h])

/-- Publishing touches none of the paths other than the four outputs. -/
lemma publish_frame (s : Store) (out : TickOutput) (p : String)
    (h1 : p ≠ "/Ac/Power") (h2 : p ≠ "/Ac/L1/Power")
    (h3 : p ≠ "/Ac/L2/Power") (h4 : p ≠ "/Ac/L3/Power") :
    publish s out p = s p := by
  simp [publish, Store.set, h1, h2, h3, h4]

/-- Publishing the same output twice leaves the store where one publish
put it. -/
lemma publish_publish (s : Store) (out : TickOutput) :
    publish (publish s out) out = publish s out := by
  funext q
  by_cases h4 : q = "/Ac/L3/Power" <;>
    by_cases h3 : q = "/Ac/L2/Power" <;>
      by_cases h2 : q = "/Ac/L1/Power" <;>
        by_cases h1 : q = "/Ac/Power" <;>
          simp [publish, Store.set, h1, h2, h3, h4]

/-- The wait loop makes at most `rem` further `get_object` attempts. -/
lemma waitLoop_attempts_le (avail : Nat → Bool) (m : Nat) :
    ∀ rem rc a t, (waitLoop avail m rem rc a t).attempts ≤ a + rem := by
  intro rem
  induction rem with
  | zero => intro rc a t; simp [waitLoop, WaitResult.attempts]
  | succ rem ih =>
    intro rc a t
    unfold waitLoop
    split
    · simp only [WaitResult.attempts]; omega
    · split
      · simp only [WaitResult.attempts]; omega
      · calc (waitLoop avail m rem (rc + 1) (a + 1)
              (t + retry_interval)).attempts ≤ (a + 1) + rem := ih _ _ _
          _ = a + (rem + 1) := by omega

/-- When the service never appears during the budget, the wait loop makes
every remaining attempt, sleeps between consecutive attempts, and calls
`sys.exit(1)`. -/
lemma waitLoop_all_false (avail : Nat → Bool) (m : Nat)
    (h : ∀ k, k < m → avail k = false) :
    ∀ rem rc a t, rem ≠ 0 → rc + rem = m →
      waitLoop avail m rem rc a t =
        .exitCode 1 (a + rem) (t + retry_interval * (rem - 1)) := by
  intro rem
  induction rem with
  | zero => intro rc a t hrem; exact absurd rfl hrem
  | succ rem ih =>
    intro rc a t _ hsum
    have hrc : avail rc = false := h rc (by omega)
    unfold waitLoop
    rw [hrc]
    simp only [Bool.false_eq_true, if_false]
    by_cases hlast : rc + 1 ≥ m
    · have hr0 : rem = 0 := by omega
      subst hr0
      simp [hlast]
    · have hr : rem ≠ 0 := by omega
      simp only [hlast, if_false]
      rw [ih (rc + 1) (a + 1) (t + retry_interval) hr (by omega)]
      simp only [retry_interval]
      have e1 : a + 1 + rem = a + (rem + 1) := by omega
      have e2 : t + 2 + 2 * (rem - 1) = t + 2 * (rem + 1 - 1) := by omega
      rw [e1, e2]

/-- Unfolding one scheduler tick from a run. -/
lemma runTicks_cons (i : TickInput) (ts : List TickInput) (s : Store) :
    runTicks (i :: ts) s = runTicks ts ((update i s).store) := rfl

/-- The total consumption computed on a tick is clamped at `0`. -/
lemma computeTick_acPower_nonneg (gp gl1 pp pl1 : Option ℚ) :
    0 ≤ (computeTick gp gl1 pp pl1).acPower := by
  simp only [computeTick]
  exact le_max_left _ _

/-- The L1 consumption computed on a tick is clamped at `0`. -/
lemma computeTick_acL1Power_nonneg (gp gl1 pp pl1 : Option ℚ) :
    0 ≤ (computeTick gp gl1 pp pl1).acL1Power := by
  simp only [computeTick]
  exact le_max_left _ _

/-- `waitForService` makes at most `maxR` attempts. -/
lemma waitForService_attempts_le (avail : Nat → Bool) (maxR : Nat) :
    (waitForService avail maxR).attempts ≤ maxR := by
  have := waitLoop_attempts_le avail maxR maxR 0 0 0
  simpa [waitForService] using this

/-- A service unavailable for the whole budget makes `waitForService`
exhaust all `maxR` attempts, sleep `retry_interval` seconds between the
consecutive attempts, and call `sys.exit(1)`. -/
lemma waitForService_all_false (avail : Nat → Bool) (maxR : Nat)
    (hm : maxR ≠ 0) (h : ∀ k, k < maxR → avail k = false) :
    waitForService avail maxR =
      .exitCode 1 maxR (retry_interval * (maxR - 1)) := by
  have := waitLoop_all_false avail maxR h maxR 0 0 0 hm (by omega)
  simpa [waitForService] using this

/-- The wait loop only ever exits the process with status 1. -/
lemma waitLoop_exit_one (avail : Nat → Bool) (m : Nat) :
    ∀ rem rc a t c a2 t2,
      waitLoop avail m rem rc a t = .exitCode c a2 t2 → c = 1 := by
  intro rem
  induction rem with
  | zero =>
    intro rc a t c a2 t2 h
    simp [waitLoop] at h
  | succ rem ih =>
    intro rc a t c a2 t2 h
    rw [waitLoop] at h
    by_cases h1 : avail rc = true
    · simp [h1] at h
    · by_cases h2 : rc + 1 ≥ m
      · simp [h1, h2] at h
        omega
      · simp [h1, h2] at h
        exact ih _ _ _ _ _ _ h

/-- `waitForService` only ever exits the process with status 1. -/
lemma waitForService_exit_one (avail : Nat → Bool) (m c a t : Nat)
    (h : waitForService avail m = .exitCode c a t) : c = 1 :=
  waitLoop_exit_one avail m m 0 0 0 c a t h

/-- The grid wait result recorded by `mainDiscovery` is exactly the result
of waiting for the grid service. -/
lemma mainDiscovery_gridResult (ga pa : Nat → Bool) :
    (mainDiscovery ga pa).gridResult = waitForService ga max_retries := by
  unfold mainDiscovery
  rcases waitForService ga max_retries with ⟨a, t⟩ | ⟨c, a, t⟩ | ⟨a, t⟩ <;>
    rcases waitForService pa max_retries with
      ⟨a2, t2⟩ | ⟨c2, a2, t2⟩ | ⟨a2, t2⟩ <;>
    rfl

/-- The PV wait result recorded by `mainDiscovery` is either absent (the
process exited during the grid wait) or the result of waiting for the PV
service. -/
lemma mainDiscovery_pvResult (ga pa : Nat → Bool) :
    (mainDiscovery ga pa).pvResult = none ∨
    (mainDiscovery ga pa).pvResult = some (waitForService pa max_retries) := by
  unfold mainDiscovery
  rcases waitForService ga max_retries with ⟨a, t⟩ | ⟨c, a, t⟩ | ⟨a, t⟩ <;>
    rcases waitForService pa max_retries with
      ⟨a2, t2⟩ | ⟨c2, a2, t2⟩ | ⟨a2, t2⟩ <;>
    simp

/-! ### Claim theorems -/

/-- C1 (counterexample): with `grid_total = -1 < 0` and `pv_total = -100`,
the published `consumption_total` is `0`, not `|grid_total| + pv_total`
(which is `-99`), so the formula does not hold for all `pv_total` and the
raw value is not always `≥ 0` without the clamp. -/
theorem import_branch_counterexample :
    (-1 : ℚ) < 0 ∧
    (computeTick (some (-1)) none (some (-100)) none).acPower = 0 ∧
    ¬ ((computeTick (some (-1)) none (some (-100)) none).acPower =
        |(-1 : ℚ)| + (-100)) ∧
    |(-1 : ℚ)| + (-100) < 0 := by
  refine ⟨by norm_num, ?_, ?_, by norm_num⟩ <;> norm_num [computeTick]

/-- C1 (amended): for every input with `grid_total < 0` and a nonnegative
`pv_total`, the published `consumption_total` equals
`|grid_total| + pv_total`, and this value is `≥ 0` without needing the
final clamp. -/
theorem import_branch_formula (gp pp : ℚ) (gl1 pl1 : Option ℚ)
    (hgp : gp < 0) (hpp : 0 ≤ pp) :
    (computeTick (some gp) gl1 (some pp) pl1).acPower = |gp| + pp ∧
    0 ≤ |gp| + pp := by
  have h0 : 0 ≤ |gp| + pp := add_nonneg (abs_nonneg gp) hpp
  refine ⟨?_, h0⟩
  simp [computeTick, hgp, max_eq_right h0]

/-- C1 (witness): the spec's scenario 1, `grid_total = -2300`,
`pv_total = 400`, gives `consumption_total = 2700`. -/
theorem import_branch_formula_witness :
    (-2300 : ℚ) < 0 ∧ (0 : ℚ) ≤ 400 ∧
    ((computeTick (some (-2300)) none (some 400) none).acPower =
      |(-2300 : ℚ)| + 400 ∧ 0 ≤ |(-2300 : ℚ)| + 400) :=
  ⟨by norm_num, by norm_num,
    import_branch_formula (-2300) 400 none none (by norm_num) (by norm_num)⟩

/-- C2: for every input with `grid_total ≥ 0`, the published
`consumption_total` equals `max 0 (pv_total - grid_total)`; in particular
`grid_total = 1715, pv_total = 2417` yields `702` and
`grid_total = 500, pv_total = 100` yields `0` after clamping. -/
theorem export_branch_formula (gp pp : ℚ) (gl1 pl1 : Option ℚ)
    (hgp : 0 ≤ gp) :
    (computeTick (some gp) gl1 (some pp) pl1).acPower = max 0 (pp - gp) ∧
    (computeTick (some 1715) none (some 2417) none).acPower = 702 ∧
    (computeTick (some 500) none (some 100) none).acPower = 0 := by
  refine ⟨?_, by norm_num [computeTick], by norm_num [computeTick]⟩
  simp [computeTick, not_lt.mpr hgp]

/-- C2 (witness): instantiation at `grid_total = 1715, pv_total = 2417`. -/
theorem export_branch_formula_witness :
    (0 : ℚ) ≤ 1715 ∧
    ((computeTick (some 1715) none (some 2417) none).acPower =
        max 0 ((2417 : ℚ) - 1715) ∧
      (computeTick (some 1715) none (some 2417) none).acPower = 702 ∧
      (computeTick (some 500) none (some 100) none).acPower = 0) :=
  ⟨by norm_num, export_branch_formula 1715 2417 none none (by norm_num)⟩

/-- C5: an unavailable (`None`) reading produces exactly the same computed
output as a reading of `0`, in each of the four reading positions and for
every combination of the other readings; in particular an unavailable
`grid_total` with `pv_total = 500` publishes `consumption_total = 500`. -/
theorem unavailable_defaults_to_zero (gp gl1 pp pl1 : Option ℚ) :
    computeTick none gl1 pp pl1 = computeTick (some 0) gl1 pp pl1 ∧
    computeTick gp none pp pl1 = computeTick gp (some 0) pp pl1 ∧
    computeTick gp gl1 none pl1 = computeTick gp gl1 (some 0) pl1 ∧
    computeTick gp gl1 pp none = computeTick gp gl1 pp (some 0) ∧
    (computeTick none none (some 500) none).acPower = 500 :=
  ⟨rfl, rfl, rfl, rfl, by norm_num [computeTick]⟩

/-- C7: on every tick and for every combination of input readings, the
published `/Ac/L2/Power` and `/Ac/L3/Power` are exactly `0`. -/
theorem phases_l2_l3_zero (gp gl1 pp pl1 : Option ℚ) (s : Store) :
    (computeTick gp gl1 pp pl1).acL2Power = 0 ∧
    (computeTick gp gl1 pp pl1).acL3Power = 0 ∧
    publish s (computeTick gp gl1 pp pl1) "/Ac/L2/Power" =
      some (.num 0) ∧
    publish s (computeTick gp gl1 pp pl1) "/Ac/L3/Power" =
      some (.num 0) := by
  refine ⟨rfl, rfl, ?_, ?_⟩ <;> simp [publish, Store.set, computeTick]

/-- C10: immediately after construction/registration, before any tick, the
four published power outputs all read exactly `0`. -/
theorem initial_outputs_zero (file pyver : String) :
    initStore file pyver "/Ac/Power" = some (.num 0) ∧
    initStore file pyver "/Ac/L1/Power" = some (.num 0) ∧
    initStore file pyver "/Ac/L2/Power" = some (.num 0) ∧
    initStore file pyver "/Ac/L3/Power" = some (.num 0) :=
  ⟨rfl, rfl, rfl, rfl⟩

/-- C3: any fault during a tick's read/compute/publish sequence is caught
and logged, no publish happens for that tick, `update` still returns the
normal completion signal `True` to the scheduler, and a subsequent tick
behaves exactly as it would have without the faulting tick. -/
theorem tick_fault_isolated (i j : TickInput) (s : Store)
    (hi : faulty i = true) :
    (update i s).ret = true ∧
    (update i s).store = s ∧
    (update i s).log ≠ [] ∧
    update j ((update i s).store) = update j s := by
  rw [update_of_faulty i s hi]
  exact ⟨rfl, rfl, by simp, rfl⟩

/-- C3 (witness): a tick whose grid read raises, followed by a normal
tick, starting from the freshly registered store. -/
theorem tick_fault_isolated_witness :
    faulty ⟨.error (), .ok none, .ok none, .ok none, true⟩ = true ∧
    ((update ⟨.error (), .ok none, .ok none, .ok none, true⟩
        (initStore "f" "3")).ret = true ∧
      (update ⟨.error (), .ok none, .ok none, .ok none, true⟩
        (initStore "f" "3")).store = initStore "f" "3" ∧
      (update ⟨.error (), .ok none, .ok none, .ok none, true⟩
        (initStore "f" "3")).log ≠ [] ∧
      update ⟨.ok (some 1715), .ok none, .ok (some 2417), .ok none, true⟩
        ((update ⟨.error (), .ok none, .ok none, .ok none, true⟩
          (initStore "f" "3")).store) =
      update ⟨.ok (some 1715), .ok none, .ok (some 2417), .ok none, true⟩
        (initStore "f" "3")) :=
  ⟨rfl, tick_fault_isolated _ _ _ rfl⟩

/-- C4: startup discovery, run sequentially for the grid endpoint then the
PV endpoint, tries each endpoint at most `max_retries = 30` times; when
the grid endpoint never appears within the budget, all 30 attempts are
made with `retry_interval = 2` seconds slept between consecutive attempts
(29 sleeps), the process exits with status 1, and the PV endpoint is never
checked; when the PV endpoint never appears within the budget the process
also exits with status 1, and if the grid endpoint had been found the PV
wait records its own 30 exhausted attempts and 29 sleeps. -/
theorem startup_discovery_bounded (gridAvail pvAvail : Nat → Bool) :
    (mainDiscovery gridAvail pvAvail).gridResult.attempts ≤ max_retries ∧
    (∀ r, (mainDiscovery gridAvail pvAvail).pvResult = some r →
      r.attempts ≤ max_retries) ∧
    ((∀ k, k < max_retries → gridAvail k = false) →
      mainDiscovery gridAvail pvAvail =
        ⟨.exitCode 1 max_retries (retry_interval * (max_retries - 1)),
          none, some 1⟩) ∧
    ((∀ k, k < max_retries → pvAvail k = false) →
      (mainDiscovery gridAvail pvAvail).exitStatus = some 1) ∧
    (∀ a t, waitForService gridAvail max_retries = .found a t →
      (∀ k, k < max_retries → pvAvail k = false) →
      mainDiscovery gridAvail pvAvail =
        ⟨.found a t,
          some (.exitCode 1 max_retries (retry_interval * (max_retries - 1))),
          some 1⟩) := by
  refine ⟨?_, ?_, ?_, ?_, ?_⟩
  · rw [mainDiscovery_gridResult]
    exact waitForService_attempts_le gridAvail max_retries
  · intro r hr
    rcases mainDiscovery_pvResult gridAvail pvAvail with hc | hc
    · rw [hc] at hr; exact absurd hr (by simp)
    · rw [hc] at hr
      rw [← Option.some_inj.mp hr]
      exact waitForService_attempts_le pvAvail max_retries
  · intro h
    have hG := waitForService_all_false gridAvail max_retries
      (by decide) h
    unfold mainDiscovery
    rw [hG]
  · intro h
    have hP := waitForService_all_false pvAvail max_retries
      (by decide) h
    unfold mainDiscovery
    rcases hG : waitForService gridAvail max_retries with
      ⟨a, t⟩ | ⟨c, a, t⟩ | ⟨a, t⟩
    · rw [hP]
    · simp [waitForService_exit_one gridAvail max_retries c a t hG]
    · rw [hP]
  · intro a t hG h
    have hP := waitForService_all_false pvAvail max_retries
      (by decide) h
    unfold mainDiscovery
    rw [hG, hP]

/-- C4 (witness): a grid endpoint that never appears (PV consequently
never consulted), and a grid endpoint found at once with a PV endpoint
that never appears (exit status 1 on the PV wait). -/
theorem startup_discovery_bounded_witness :
    (∀ k, k < max_retries → (fun _ => false) k = false) ∧
    mainDiscovery (fun _ => false) (fun _ => true) =
      ⟨.exitCode 1 max_retries (retry_interval * (max_retries - 1)),
        none, some 1⟩ ∧
    mainDiscovery (fun _ => true) (fun _ => false) =
      ⟨.found 1 0,
        some (.exitCode 1 max_retries (retry_interval * (max_retries - 1))),
        some 1⟩ :=
  ⟨fun _ _ => rfl,
    (startup_discovery_bounded (fun _ => false) (fun _ => true)).2.2.1
      (fun _ _ => rfl),
    (startup_discovery_bounded (fun _ => true) (fun _ => false)).2.2.2.2
      1 0 rfl (fun _ _ => rfl)⟩

/-- C6: after every successful (non-faulting) tick, each of the four
published fields `/Ac/Power`, `/Ac/L1/Power`, `/Ac/L2/Power`,
`/Ac/L3/Power` holds a value `≥ 0`, for every combination of input
readings and every prior store; and already at registration all four
fields hold `0`. -/
theorem published_fields_nonneg (file pyver : String) (i : TickInput)
    (s : Store) (h : faulty i = false) :
    (∃ q, (update i s).store "/Ac/Power" = some (.num q) ∧ 0 ≤ q) ∧
    (∃ q, (update i s).store "/Ac/L1/Power" = some (.num q) ∧ 0 ≤ q) ∧
    (∃ q, (update i s).store "/Ac/L2/Power" = some (.num q) ∧ 0 ≤ q) ∧
    (∃ q, (update i s).store "/Ac/L3/Power" = some (.num q) ∧ 0 ≤ q) ∧
    initStore file pyver "/Ac/Power" = some (.num 0) ∧
    initStore file pyver "/Ac/L1/Power" = some (.num 0) ∧
    initStore file pyver "/Ac/L2/Power" = some (.num 0) ∧
    initStore file pyver "/Ac/L3/Power" = some (.num 0) := by
  obtain ⟨gp, gl1, pp, pl1, he⟩ := update_of_not_faulty i h
  rw [he s]
  refine ⟨⟨(computeTick gp gl1 pp pl1).acPower, ?_,
      computeTick_acPower_nonneg gp gl1 pp pl1⟩,
    ⟨(computeTick gp gl1 pp pl1).acL1Power, ?_,
      computeTick_acL1Power_nonneg gp gl1 pp pl1⟩,
    ⟨(computeTick gp gl1 pp pl1).acL2Power, ?_, ?_⟩,
    ⟨(computeTick gp gl1 pp pl1).acL3Power, ?_, ?_⟩,
    rfl, rfl, rfl, rfl⟩ <;>
  simp [publish, Store.set, computeTick]

/-- C6 (witness): a successful tick reading `grid_total = -2300`,
`pv_total = 400` against the freshly constructed store. -/
theorem published_fields_nonneg_witness :
    faulty ⟨.ok (some (-2300)), .ok (some (-2300)), .ok (some 400),
      .ok (some 400), true⟩ = false ∧
    ((∃ q, (update ⟨.ok (some (-2300)), .ok (some (-2300)), .ok (some 400),
        .ok (some 400), true⟩ emptyStore).store "/Ac/Power" =
        some (.num q) ∧ 0 ≤ q) ∧
      (∃ q, (update ⟨.ok (some (-2300)), .ok (some (-2300)), .ok (some 400),
        .ok (some 400), true⟩ emptyStore).store "/Ac/L1/Power" =
        some (.num q) ∧ 0 ≤ q) ∧
      (∃ q, (update ⟨.ok (some (-2300)), .ok (some (-2300)), .ok (some 400),
        .ok (some 400), true⟩ emptyStore).store "/Ac/L2/Power" =
        some (.num q) ∧ 0 ≤ q) ∧
      (∃ q, (update ⟨.ok (some (-2300)), .ok (some (-2300)), .ok (some 400),
        .ok (some 400), true⟩ emptyStore).store "/Ac/L3/Power" =
        some (.num q) ∧ 0 ≤ q) ∧
      initStore "f" "3" "/Ac/Power" = some (.num 0) ∧
      initStore "f" "3" "/Ac/L1/Power" = some (.num 0) ∧
      initStore "f" "3" "/Ac/L2/Power" = some (.num 0) ∧
      initStore "f" "3" "/Ac/L3/Power" = some (.num 0)) :=
  ⟨rfl, published_fields_nonneg "f" "3" _ emptyStore rfl⟩

/-- C8: a tick is idempotent — running `update` a second time while the
four readings are unchanged reproduces exactly the same published output
(the result depends only on the readings, not on the store state left by
the first run). -/
theorem update_idempotent (i : TickInput) (s : Store)
    (h : faulty i = false) :
    update i ((update i s).store) = update i s := by
  obtain ⟨gp, gl1, pp, pl1, he⟩ := update_of_not_faulty i h
  rw [he s]
  show update i (publish s (computeTick gp gl1 pp pl1)) = _
  rw [he (publish s (computeTick gp gl1 pp pl1)), publish_publish]

/-- C8 (witness): a normal tick run twice from the empty store. -/
theorem update_idempotent_witness :
    faulty ⟨.ok (some 1715), .ok (some 1715), .ok (some 2417),
      .ok (some 2417), true⟩ = false ∧
    update ⟨.ok (some 1715), .ok (some 1715), .ok (some 2417),
        .ok (some 2417), true⟩
      ((update ⟨.ok (some 1715), .ok (some 1715), .ok (some 2417),
        .ok (some 2417), true⟩ emptyStore).store) =
    update ⟨.ok (some 1715), .ok (some 1715), .ok (some 2417),
        .ok (some 2417), true⟩ emptyStore :=
  ⟨rfl, update_idempotent _ emptyStore rfl⟩

/-- C9: a tick writes only the four output paths — every other path, in
particular the static identity/metadata paths, holds its registration
value after any tick and after any sequence of ticks from the freshly
registered store. -/
theorem tick_frame_condition (p : String)
    (hp : p ∉ ["/Ac/Power", "/Ac/L1/Power", "/Ac/L2/Power",
      "/Ac/L3/Power"]) :
    (∀ i s, (update i s).store p = s p) ∧
    (∀ ticks s, runTicks ticks s p = s p) ∧
    (∀ file pyver ticks,
      runTicks ticks (initStore file pyver) p = initStore file pyver p) := by
  have h1 : p ≠ "/Ac/Power" := by intro e; subst e; exact hp (by decide)
  have h2 : p ≠ "/Ac/L1/Power" := by intro e; subst e; exact hp (by decide)
  have h3 : p ≠ "/Ac/L2/Power" := by intro e; subst e; exact hp (by decide)
  have h4 : p ≠ "/Ac/L3/Power" := by intro e; subst e; exact hp (by decide)
  have hup : ∀ i s, (update i s).store p = s p := by
    intro i s
    rcases update_store_cases i s with hc | ⟨gp, gl1, pp, pl1, hc⟩
    · rw [hc]
    · rw [hc]; exact publish_frame s _ p h1 h2 h3 h4
  have hrun : ∀ ticks s, runTicks ticks s p = s p := by
    intro ticks
    induction ticks with
    | nil => intro s; rfl
    | cons i ts ih =>
      intro s
      rw [runTicks_cons, ih ((update i s).store), hup i s]
  exact ⟨hup, hrun, fun file pyver ticks => hrun ticks _⟩

/-- C9 (witness): the serial-number path is outside the four output paths
and is preserved by every tick. -/
theorem tick_frame_condition_witness :
    ("/Serial" ∉ ["/Ac/Power", "/Ac/L1/Power", "/Ac/L2/Power",
      "/Ac/L3/Power"]) ∧
    ((∀ i s, (update i s).store "/Serial" = s "/Serial") ∧
      (∀ ticks s, runTicks ticks s "/Serial" = s "/Serial") ∧
      (∀ file pyver ticks,
        runTicks ticks (initStore file pyver) "/Serial" =
          initStore file pyver "/Serial")) :=
  ⟨by decide, tick_frame_condition "/Serial" (by decide)⟩

end ConsumptionCalc
